import Mathlib

/-!
Verification of the Cloud Spanner backup samples (`samples/samples/backup_sample.py`)
against its natural-language specification.

The script is a thin client over a remote administrative service: every sample
function marshals arguments, issues remote calls, polls long-running operations
and prints results.  We embed:

* the control flow of each sample function, in an `Except`-style embedding where
  every remote call is an oracle field that either returns a value or raises;
* the `__main__` argparse dispatch;
* event traces of the two polling loops (`cancel_backup`, `delete_backup`);
* a stub remote service (state = set of backup names) for the claims whose
  deciding code lives in the client library / remote service rather than in the
  sample file; such definitions carry a `Modelled from the spec:` doc comment.

Time is modelled in whole seconds (`Nat`).
-/

/-- Exceptions that can surface from the script: an error raised by a remote
service call (identified abstractly by a code), or a failed `assert`. -/
inductive Exc where
  | serviceError (code : Nat)
  | assertionError
deriving DecidableEq

/-- Backup descriptor snapshot, as read back by `backup.reload()`:
name, size, create time, version time, readiness (`is_ready()`). -/
structure Backup where
  name : String
  size_bytes : Nat
  create_time : Nat
  version_time : Nat
  is_ready : Bool
deriving DecidableEq

/-- Stub remote-service state: the set of backups (by name) that currently
exist in the instance. -/
structure SpannerState where
  backups : List String
deriving DecidableEq

/-- Modelled from the spec: `backup.exists()` asks the remote service whether a
backup with this name currently exists (the client-library implementation is
not under the sampled sources). -/
def spanner_backup_exists (s : SpannerState) (backup_id : String) : Bool :=
  s.backups.contains backup_id

/-- Modelled from the spec: `backup.delete()` removes the backup with this name
from the remote service; names are unique keys in the service. -/
def spanner_backup_delete (s : SpannerState) (backup_id : String) : SpannerState :=
  ⟨s.backups.filter (fun x => x != backup_id)⟩

/-! ## Long-running-operation facade (spec section 4.1) -/

/-- Normalized outcome of waiting on a long-running operation
(spec data model: `OperationResult`). -/
inductive OperationResult (α : Type) where
  | Success (payload : α)
  | Cancelled
  | Failed (e : Exc)
  | TimedOut
deriving DecidableEq

/-- A handle on a remote long-running operation: how many more seconds the
remote job needs before it is done, its eventual payload, and whether a cancel
request has been recorded against it. -/
structure OperationHandle (α : Type) where
  remainingSeconds : Nat
  payload : α
  cancelled : Bool
deriving DecidableEq

/-- Modelled from the spec: `awaitCompletion(handle, timeoutSeconds)` — realized
in the samples as `operation.result(timeoutSeconds)`, whose implementation is in
the operations library, not under the sampled sources — blocks until the remote
operation reports done or the timeout elapses; on timeout it returns `TimedOut`
without cancelling the underlying operation. The handle is returned unchanged in
either case. -/
def awaitCompletion {α : Type} (op : OperationHandle α) (timeoutSeconds : Nat) :
    OperationResult α × OperationHandle α :=
  if op.remainingSeconds ≤ timeoutSeconds then (.Success op.payload, op)
  else (.TimedOut, op)

/-! ## CLI surface (`__main__`, lines 455-501) -/

/-- The argparse namespace produced by `parser.parse_args()`: the parser defines
exactly `instance_id` (positional), `--database-id`, `--backup-id`, and the
subparser destination `command` (absent when no subcommand is given).  No other
attribute — in particular no `source_backup_id` — is ever defined. -/
structure Args where
  instance_id : String
  database_id : String
  backup_id : String
  command : Option String
deriving DecidableEq

/-- What the `__main__` dispatch does for a parsed namespace: call one of the
sample functions with specific arguments, raise `TypeError`/`AttributeError`,
or print the fallback line. -/
inductive MainAction where
  | call_cancel_backup (instance_id database_id backup_id : String)
  | call_update_backup (instance_id backup_id : String)
  | call_restore_database (instance_id database_id backup_id : String)
  | call_list_backups (instance_id database_id backup_id : String)
  | call_list_backup_operations (instance_id database_id backup_id : String)
  | call_list_database_operations (instance_id : String)
  | call_delete_backup (instance_id backup_id : String)
  | type_error (msg : String)
  | attribute_error (attr : String)
  | print_line (msg : String)
deriving DecidableEq

/-- How Python prints an `Optional[str]`: `None` when absent. -/
def optStr : Option String → String
  | none => "None"
  | some s => s

/-- The `if/elif` chain of `__main__` (lines 482-501).
Two branches cannot perform their intended call:
* `create_backup` is defined with four required parameters
  `(instance_id, database_id, backup_id, version_time)` (line 29) but the
  dispatch calls it with only three arguments (line 483), so Python raises
  `TypeError` before the function body runs;
* the `copy_backup` branch evaluates `args.source_backup_id` (line 499), an
  attribute the parser never defines, so Python raises `AttributeError`. -/
def mainDispatch (args : Args) : MainAction :=
  if args.command = some ("create_backup") then
    .type_error ("create_backup() missing 1 required positional argument: version_time")
  else if args.command = some ("cancel_backup") then
    .call_cancel_backup args.instance_id args.database_id args.backup_id
  else if args.command = some ("update_backup") then
    .call_update_backup args.instance_id args.backup_id
  else if args.command = some ("restore_database") then
    .call_restore_database args.instance_id args.database_id args.backup_id
  else if args.command = some ("list_backups") then
    .call_list_backups args.instance_id args.database_id args.backup_id
  else if args.command = some ("list_backup_operations") then
    .call_list_backup_operations args.instance_id args.database_id args.backup_id
  else if args.command = some ("list_database_operations") then
    .call_list_database_operations args.instance_id
  else if args.command = some ("delete_backup") then
    .call_delete_backup args.instance_id args.backup_id
  else if args.command = some ("copy_backup") then
    .attribute_error ("source_backup_id")
  else
    .print_line ("Command " ++ optStr args.command ++ " did not match expected commands.")

/-! ## `cancel_backup` over the stub service (lines 176-201) -/

/-- Modelled from the spec: cancellation of a create-backup operation is best
effort, so by the time `operation.done()` turns true the remote job has either
completed (the backup now exists fully formed) or been cancelled (no backup was
created). -/
inductive CancelOutcome where
  | completed
  | cancelled
deriving DecidableEq

/-- `cancel_backup` after the polling loop has finished, over the stub service:
the state once the operation is done is `s` with `backup_id` added when the
creation completed, `s` unchanged when it was cancelled; then lines 196-201
query `backup.exists()` and delete the backup if it exists.  Returns the final
service state and the printed lines. -/
def cancel_backup_run (s : SpannerState) (backup_id : String) (outcome : CancelOutcome) :
    SpannerState × List String :=
  let s1 : SpannerState :=
    match outcome with
    | .completed => ⟨backup_id :: s.backups⟩
    | .cancelled => s
  if spanner_backup_exists s1 backup_id then
    (spanner_backup_delete s1 backup_id,
      ["Backup was created before the cancel completed.", "Backup deleted."])
  else
    (s1, ["Backup creation was successfully cancelled."])

/-! ## Event traces of the two polling loops (for the temporal claims) -/

/-- Observable events of a sample-function run. -/
inductive Ev where
  | submit_create
  | cancel_op
  | poll_done (res : Bool)
  | sleep (seconds : Nat)
  | query_exists (res : Bool)
  | delete_call
  | reload_call
  | print_ev (msg : String)
deriving DecidableEq

/-- Trace of `while not operation.done(): time.sleep(300)` (lines 192-193),
where `n` is the number of polls that return false before one returns true. -/
def cancel_poll_trace : Nat → List Ev
  | 0 => [.poll_done true]
  | n + 1 => .poll_done false :: .sleep 300 :: cancel_poll_trace n

/-- Full event trace of `cancel_backup` (lines 185-201): submit the create,
request cancellation, poll `done()` until true, then inspect
`backup.exists()` and delete the backup when it exists. -/
def cancel_backup_trace (n : Nat) (created : Bool) : List Ev :=
  [.submit_create, .cancel_op] ++ cancel_poll_trace n ++
    (if created then
      [.query_exists true, .print_ev ("Backup was created before the cancel completed."),
        .delete_call, .print_ev ("Backup deleted.")]
    else
      [.query_exists false, .print_ev ("Backup creation was successfully cancelled.")])

/-- Trace of `while backup.referencing_databases: time.sleep(30); backup.reload()`
(lines 341-343), where `m` is the number of loop iterations taken. -/
def delete_wait_trace : Nat → List Ev
  | 0 => []
  | m + 1 => .sleep 30 :: .reload_call :: delete_wait_trace m

/-- Full event trace of `delete_backup` (lines 334-350): initial reload, the
wait loop, the delete, and the `assert backup.exists() is False` check (`ex` is
what `backup.exists()` returns after the delete; when it is true the assert
fails and nothing further is printed). -/
def delete_backup_trace (m : Nat) (ex : Bool) : List Ev :=
  .reload_call :: delete_wait_trace m ++
    (.delete_call :: .query_exists ex ::
      (if ex then [] else [.print_ev ("Backup has been deleted.")]))

/-- Scans a trace and checks that no `query_exists` event occurs before the
first `poll_done true` event. -/
def no_exists_before_done : List Ev → Bool
  | [] => true
  | .query_exists _ :: _ => false
  | .poll_done true :: _ => true
  | _ :: rest => no_exists_before_done rest

/-- The successive results of the `operation.done()` polls in a trace. -/
def poll_results : List Ev → List Bool
  | [] => []
  | .poll_done b :: rest => b :: poll_results rest
  | _ :: rest => poll_results rest

/-- The successive sleep durations (in seconds) in a trace. -/
def sleep_durations : List Ev → List Nat
  | [] => []
  | .sleep s :: rest => s :: sleep_durations rest
  | _ :: rest => sleep_durations rest

/-! ## `create_backup` expire time (lines 36-39) -/

/-- The expire time `create_backup` requests: `datetime.utcnow() + timedelta(days=14)`,
with time in seconds since the epoch. -/
def create_backup_expire_time (now : Nat) : Nat :=
  now + 14 * 86400

/-- Modelled from the spec: the remote service stores the requested
`expire_time` in the backup descriptor, up to service rounding; the stub takes
the rounding to be the identity. -/
def stub_service_expire_time (requested : Nat) : Nat :=
  requested

/-- `create_backup`, viewed only through its expire-time dataflow: the
requested expire time, and the descriptor expire time read back after the
operation completes and `backup.reload()` runs. -/
def create_backup_expire_flow (now : Nat) : Nat × Nat :=
  let requested := create_backup_expire_time now
  (requested, stub_service_expire_time requested)

/-! ## Pagination (`list_backups` with `page_size=2`, lines 320-327) -/

/-- Modelled from the spec: with `page_size=2` the service returns the backup
collection in successive pages of at most two names, fetched transparently
while iterating. -/
def pagesOfTwo : List String → List (List String)
  | [] => []
  | [a] => [[a]]
  | a :: b :: rest => [a, b] :: pagesOfTwo rest

/-! ## `delete_backup` over the stub service (lines 334-350) -/

/-- The wait loop of `delete_backup`: `refsAt i` is the `referencing_databases`
list the `i`-th reload observes.  Returns the reload index at which the list is
first empty, or `none` when the fuel runs out before that happens. -/
def delete_wait_run (refsAt : Nat → List String) : Nat → Nat → Option Nat
  | _, 0 => none
  | i, fuel + 1 =>
    if (refsAt i).isEmpty then some i
    else delete_wait_run refsAt (i + 1) fuel

/-- Modelled from the spec: `delete_backup` over the stub service.  The wait
loop reloads until `referencing_databases` is empty; the delete then removes
the backup from the service state; `assert backup.exists() is False` aborts the
run when the backup still exists.  On a normal return, yields the final state,
the reload index at which the delete was issued, and the value `backup.exists()`
returned after the delete. -/
def delete_backup_run (refsAt : Nat → List String) (fuel : Nat)
    (s : SpannerState) (backup_id : String) : Option (SpannerState × Nat × Bool) :=
  match delete_wait_run refsAt 0 fuel with
  | none => none
  | some i =>
    let s2 := spanner_backup_delete s backup_id
    let ex := spanner_backup_exists s2 backup_id
    if ex then none
    else some (s2, i, ex)

/-! ## Exception-propagation embedding of every sample function

Each remote call a sample function performs is an oracle field that either
returns a value or raises (`Except.error`).  The embeddings below mirror the
Python control flow call by call; none of them installs a handler, exactly as
the source contains no `try`/`except`.  Local constructors
(`spanner.Client()`, `instance(...)`, `database(...)`, `instance.backup(...)`)
perform no remote call and are not modelled as fallible. -/

/-- Remote calls of `create_backup` (lines 29-55) and of
`create_backup_with_encryption_key` (lines 61-98), which performs the same
sequence: `backup.create()`, `operation.result(2100)`, and two
`backup.reload()` calls. -/
structure CreateBackupSvc where
  create : Except Exc Unit
  op_result : Except Exc Unit
  reload1 : Except Exc Backup
  reload2 : Except Exc Backup

/-- `create_backup` (lines 29-55): create, wait, reload, assert
`backup.is_ready() is True`, reload again, print. -/
def create_backupE (svc : CreateBackupSvc) : Except Exc (List String) :=
  match svc.create with
  | .error e => .error e
  | .ok _ =>
  match svc.op_result with
  | .error e => .error e
  | .ok _ =>
  match svc.reload1 with
  | .error e => .error e
  | .ok b1 =>
  if b1.is_ready then
    match svc.reload2 with
    | .error e => .error e
    | .ok b2 =>
      .ok ["Backup " ++ b2.name ++ " of size " ++ toString b2.size_bytes ++
        " bytes was created at " ++ toString b2.create_time ++
        " for version of database at " ++ toString b2.version_time]
  else .error .assertionError

/-- `create_backup_with_encryption_key` (lines 61-98): same remote-call
sequence as `create_backup`; the printed line names the KMS key. -/
def create_backup_with_encryption_keyE (svc : CreateBackupSvc)
    (kms_key_name : String) : Except Exc (List String) :=
  match svc.create with
  | .error e => .error e
  | .ok _ =>
  match svc.op_result with
  | .error e => .error e
  | .ok _ =>
  match svc.reload1 with
  | .error e => .error e
  | .ok b1 =>
  if b1.is_ready then
    match svc.reload2 with
    | .error e => .error e
    | .ok b2 =>
      .ok ["Backup " ++ b2.name ++ " of size " ++ toString b2.size_bytes ++
        " bytes was created at " ++ toString b2.create_time ++
        " using encryption key " ++ kms_key_name]
  else .error .assertionError

/-- Restore information read back by `new_database.reload()`:
`restore_info.backup_info` fields, plus the database encryption key name used
by the encrypted variant. -/
structure RestoreInfo where
  source_database : String
  backup : String
  version_time : Nat
  kms_key_name : String
deriving DecidableEq

/-- Remote calls of `restore_database` (lines 105-129) and
`restore_database_with_encryption_key` (lines 136-169):
`new_database.restore(backup)`, `operation.result(1600)`,
`new_database.reload()`. -/
structure RestoreDatabaseSvc where
  restore : Except Exc Unit
  op_result : Except Exc Unit
  reload : Except Exc RestoreInfo

/-- `restore_database` (lines 105-129). -/
def restore_databaseE (svc : RestoreDatabaseSvc) (new_database_id : String) :
    Except Exc (List String) :=
  match svc.restore with
  | .error e => .error e
  | .ok _ =>
  match svc.op_result with
  | .error e => .error e
  | .ok _ =>
  match svc.reload with
  | .error e => .error e
  | .ok info =>
    .ok ["Database " ++ info.source_database ++ " restored to " ++ new_database_id ++
      " from backup " ++ info.backup ++ " with version time " ++ toString info.version_time ++ "."]

/-- `restore_database_with_encryption_key` (lines 136-169). -/
def restore_database_with_encryption_keyE (svc : RestoreDatabaseSvc)
    (new_database_id : String) : Except Exc (List String) :=
  match svc.restore with
  | .error e => .error e
  | .ok _ =>
  match svc.op_result with
  | .error e => .error e
  | .ok _ =>
  match svc.reload with
  | .error e => .error e
  | .ok info =>
    .ok ["Database " ++ info.source_database ++ " restored to " ++ new_database_id ++
      " from backup " ++ info.backup ++ " with using encryption key " ++ info.kms_key_name ++ "."]

/-- Remote calls of `cancel_backup` (lines 176-201): `backup.create()`,
`operation.cancel()`, the `operation.done()` polls (indexed by poll number),
`backup.exists()`, and `backup.delete()`. -/
structure CancelBackupSvc where
  create : Except Exc Unit
  cancel : Except Exc Unit
  done : Nat → Except Exc Bool
  backup_exists : Except Exc Bool
  delete : Except Exc Unit

/-- The poll loop `while not operation.done(): time.sleep(300)` in the
exception embedding: returns `none` when the fuel runs out while the operation
is still pending, otherwise the outcome of the loop (an error raised by a
`done()` call, or normal exit once a poll returns true). -/
def cancel_pollE (done : Nat → Except Exc Bool) : Nat → Nat → Option (Except Exc Unit)
  | _, 0 => none
  | i, fuel + 1 =>
    match done i with
    | .error e => some (.error e)
    | .ok true => some (.ok ())
    | .ok false => cancel_pollE done (i + 1) fuel

/-- `cancel_backup` (lines 176-201) in the exception embedding. -/
def cancel_backupE (svc : CancelBackupSvc) (fuel : Nat) : Option (Except Exc (List String)) :=
  match svc.create with
  | .error e => some (.error e)
  | .ok _ =>
  match svc.cancel with
  | .error e => some (.error e)
  | .ok _ =>
  match cancel_pollE svc.done 0 fuel with
  | none => none
  | some (.error e) => some (.error e)
  | some (.ok _) =>
  match svc.backup_exists with
  | .error e => some (.error e)
  | .ok true =>
    match svc.delete with
    | .error e => some (.error e)
    | .ok _ => some (.ok ["Backup was created before the cancel completed.", "Backup deleted."])
  | .ok false => some (.ok ["Backup creation was successfully cancelled."])

/-- Metadata of a listed operation, as printed by the listing samples. -/
structure OpMetadata where
  name : String
  database : String
  source_backup : String
  progress_percent : Nat
deriving DecidableEq

/-- Remote calls of `list_backup_operations` (lines 208-241): the two
`instance.list_backup_operations(filter_=...)` calls. -/
structure ListBackupOperationsSvc where
  list_create_ops : Except Exc (List OpMetadata)
  list_copy_ops : Except Exc (List OpMetadata)

/-- `list_backup_operations` (lines 208-241). -/
def list_backup_operationsE (svc : ListBackupOperationsSvc) : Except Exc (List String) :=
  match svc.list_create_ops with
  | .error e => .error e
  | .ok ops1 =>
  match svc.list_copy_ops with
  | .error e => .error e
  | .ok ops2 =>
    .ok (ops1.map (fun m => "Backup " ++ m.name ++ " on database " ++ m.database ++
          ": " ++ toString m.progress_percent ++ " percent complete.") ++
      ops2.map (fun m => "Backup " ++ m.name ++ " on source backup " ++ m.source_backup ++
          ": " ++ toString m.progress_percent ++ " percent complete."))

/-- Remote call of `list_database_operations` (lines 248-263). -/
structure ListDatabaseOperationsSvc where
  list_ops : Except Exc (List OpMetadata)

/-- `list_database_operations` (lines 248-263). -/
def list_database_operationsE (svc : ListDatabaseOperationsSvc) : Except Exc (List String) :=
  match svc.list_ops with
  | .error e => .error e
  | .ok ops =>
    .ok (ops.map (fun m => "Database " ++ m.name ++ " restored from backup is " ++
      toString m.progress_percent ++ " percent optimized."))

/-- Remote calls of `list_backups` (lines 270-327): the seven
`instance.list_backups(...)` calls, in source order (unfiltered; by backup
name; by database name; by expire time; by size; by create time and READY
state; paginated with `page_size=2`).  Each yields the listed backup names. -/
structure ListBackupsSvc where
  list_all : Except Exc (List String)
  list_by_name : Except Exc (List String)
  list_by_database : Except Exc (List String)
  list_by_expire : Except Exc (List String)
  list_by_size : Except Exc (List String)
  list_by_create_ready : Except Exc (List String)
  list_paged : Except Exc (List String)

/-- `list_backups` (lines 270-327): seven listing calls, each followed by
printing the names; the paged names are collected into a set first. -/
def list_backupsE (svc : ListBackupsSvc) : Except Exc (List String) :=
  match svc.list_all with
  | .error e => .error e
  | .ok l1 =>
  match svc.list_by_name with
  | .error e => .error e
  | .ok l2 =>
  match svc.list_by_database with
  | .error e => .error e
  | .ok l3 =>
  match svc.list_by_expire with
  | .error e => .error e
  | .ok l4 =>
  match svc.list_by_size with
  | .error e => .error e
  | .ok l5 =>
  match svc.list_by_create_ready with
  | .error e => .error e
  | .ok l6 =>
  match svc.list_paged with
  | .error e => .error e
  | .ok l7 =>
    .ok (l1 ++ l2 ++ l3 ++ l4 ++ l5 ++ l6 ++ l7.eraseDups)

/-- A backup descriptor as needed by `delete_backup` and `update_backup`:
`referencing_databases`, and the expire-time fields. -/
structure BackupMeta where
  name : String
  referencing_databases : List String
  expire_time : Nat
  max_expire_time : Nat
deriving DecidableEq

/-- Remote calls of `delete_backup` (lines 334-350): the reloads (indexed;
index 0 is the initial `backup.reload()` of line 338), `backup.delete()` and
`backup.exists()`. -/
structure DeleteBackupSvc where
  reload : Nat → Except Exc BackupMeta
  delete : Except Exc Unit
  backup_exists : Except Exc Bool

/-- The wait loop of `delete_backup` in the exception embedding: reload until
`referencing_databases` is empty; `none` when the fuel runs out while it is
still nonempty, otherwise an error raised by a reload or the final
descriptor. -/
def delete_waitE (reload : Nat → Except Exc BackupMeta) : Nat → Nat → Option (Except Exc BackupMeta)
  | _, 0 => none
  | i, fuel + 1 =>
    match reload i with
    | .error e => some (.error e)
    | .ok b =>
      if b.referencing_databases.isEmpty then some (.ok b)
      else delete_waitE reload (i + 1) fuel

/-- `delete_backup` (lines 334-350) in the exception embedding: wait until no
database references the backup, delete it, then
`assert backup.exists() is False` and print. -/
def delete_backupE (svc : DeleteBackupSvc) (fuel : Nat) : Option (Except Exc (List String)) :=
  match delete_waitE svc.reload 0 fuel with
  | none => none
  | some (.error e) => some (.error e)
  | some (.ok b) =>
  match svc.delete with
  | .error e => some (.error e)
  | .ok _ =>
  match svc.backup_exists with
  | .error e => some (.error e)
  | .ok true => some (.error .assertionError)
  | .ok false => some (.ok ["Backup " ++ b.name ++ " has been deleted."])

/-- Remote calls of `update_backup` (lines 357-372): `backup.reload()` and
`backup.update_expire_time(new_expire_time)`. -/
structure UpdateBackupSvc where
  reload : Except Exc BackupMeta
  update_expire_time : Except Exc Unit

/-- `update_backup` (lines 357-372): reload, compute
`new_expire_time = min(backup.max_expire_time, old_expire_time + timedelta(days=30))`,
issue the update, print. -/
def update_backupE (svc : UpdateBackupSvc) : Except Exc (List String) :=
  match svc.reload with
  | .error e => .error e
  | .ok b =>
    let old_expire_time := b.expire_time
    let new_expire_time := min b.max_expire_time (old_expire_time + 30 * 86400)
    match svc.update_expire_time with
    | .error e => .error e
    | .ok _ =>
      .ok ["Backup " ++ b.name ++ " expire time was updated from " ++
        toString old_expire_time ++ " to " ++ toString new_expire_time ++ "."]

/-- Database information read back by `db.reload()` in
`create_database_with_version_retention_period`. -/
structure DatabaseInfo where
  database_id : String
  version_retention_period : String
  earliest_version_time : Nat
deriving DecidableEq

/-- Remote calls of `create_database_with_version_retention_period`
(lines 379-416): `db.create()`, `operation.result(30)`, `db.reload()`,
`db.drop()`. -/
structure CreateDatabaseVRPSvc where
  create : Except Exc Unit
  op_result : Except Exc Unit
  reload : Except Exc DatabaseInfo
  drop : Except Exc Unit

/-- `create_database_with_version_retention_period` (lines 379-416). -/
def create_database_with_version_retention_periodE (svc : CreateDatabaseVRPSvc) :
    Except Exc (List String) :=
  match svc.create with
  | .error e => .error e
  | .ok _ =>
  match svc.op_result with
  | .error e => .error e
  | .ok _ =>
  match svc.reload with
  | .error e => .error e
  | .ok db =>
  match svc.drop with
  | .error e => .error e
  | .ok _ =>
    .ok ["Database " ++ db.database_id ++ " created with version retention period " ++
      db.version_retention_period ++ " and earliest version time " ++
      toString db.earliest_version_time]

/-- Remote calls of `copy_backup` (lines 423-449): `copy_backup.create()`,
`operation.result(2100)`, `copy_backup.reload()`. -/
structure CopyBackupSvc where
  create : Except Exc Unit
  op_result : Except Exc Unit
  reload : Except Exc Backup

/-- `copy_backup` (lines 423-449): create the copy, wait, reload, assert
`copy_backup.is_ready() is True`, print. -/
def copy_backupE (svc : CopyBackupSvc) : Except Exc (List String) :=
  match svc.create with
  | .error e => .error e
  | .ok _ =>
  match svc.op_result with
  | .error e => .error e
  | .ok _ =>
  match svc.reload with
  | .error e => .error e
  | .ok b =>
  if b.is_ready then
    .ok ["Backup " ++ b.name ++ " of size " ++ toString b.size_bytes ++
      " bytes was created at " ++ toString b.create_time ++
      " with version time " ++ toString b.version_time]
  else .error .assertionError

/-! ## Shared helper lemmas -/

/-- Deleting a backup from the stub service makes `exists()` false for it. -/
theorem spanner_backup_exists_delete (s : SpannerState) (backup_id : String) :
    spanner_backup_exists (spanner_backup_delete s backup_id) backup_id = false := by
  simp [spanner_backup_exists, spanner_backup_delete]

/-- Concatenating the pages of size two reproduces the backup collection. -/
theorem pagesOfTwo_flatten : ∀ l : List String, (pagesOfTwo l).flatten = l
  | [] => rfl
  | [_] => rfl
  | _ :: _ :: rest => by simp [pagesOfTwo, pagesOfTwo_flatten rest]

/-! ## Claim theorems -/

/-- Claim C1: waiting for completion (`operation.result(timeoutSeconds)`, as in
`operation.result(2100)` in `create_backup`) returns a `TimedOut` result when
the timeout elapses before the remote operation is done, rather than raising,
and leaves the underlying operation unchanged — in particular it does not
cancel it. -/
theorem C1_awaitCompletion_timed_out {α : Type} (op : OperationHandle α)
    (timeoutSeconds : Nat) (h : timeoutSeconds < op.remainingSeconds) :
    (awaitCompletion op timeoutSeconds).1 = OperationResult.TimedOut ∧
      (awaitCompletion op timeoutSeconds).2 = op ∧
      (awaitCompletion op timeoutSeconds).2.cancelled = op.cancelled := by
  rw [awaitCompletion, if_neg (Nat.not_le.mpr h)]
  exact ⟨rfl, rfl, rfl⟩

/-- Witness for C1 at the `create_backup` timeout of 2100 seconds, with a
remote operation that needs 3000 seconds and has not been cancelled. -/
theorem C1_awaitCompletion_timed_out_witness :
    2100 < 3000 ∧
      ((awaitCompletion (⟨3000, 0, false⟩ : OperationHandle Nat) 2100).1 =
          OperationResult.TimedOut ∧
        (awaitCompletion (⟨3000, 0, false⟩ : OperationHandle Nat) 2100).2 = ⟨3000, 0, false⟩ ∧
        (awaitCompletion (⟨3000, 0, false⟩ : OperationHandle Nat) 2100).2.cancelled = false) :=
  ⟨by decide, C1_awaitCompletion_timed_out ⟨3000, 0, false⟩ 2100 (by decide)⟩

/-- Claim C2 (evaluation of the dispatch): seven of the nine subcommands
dispatch to the corresponding sample function with the parsed identifiers, and
an unmatched command prints the fallback line; but the `create_backup` branch
raises `TypeError` (`create_backup` requires a fourth argument `version_time`
that the call at line 483 does not pass) and the `copy_backup` branch raises
`AttributeError` (`args.source_backup_id` is never defined by the parser), so
for those two subcommands no sample function is invoked and no status line is
printed. -/
theorem C2_main_dispatch_eval :
    (∀ i d b : String,
      mainDispatch ⟨i, d, b, some ("cancel_backup")⟩ = .call_cancel_backup i d b ∧
      mainDispatch ⟨i, d, b, some ("update_backup")⟩ = .call_update_backup i b ∧
      mainDispatch ⟨i, d, b, some ("restore_database")⟩ = .call_restore_database i d b ∧
      mainDispatch ⟨i, d, b, some ("list_backups")⟩ = .call_list_backups i d b ∧
      mainDispatch ⟨i, d, b, some ("list_backup_operations")⟩ =
        .call_list_backup_operations i d b ∧
      mainDispatch ⟨i, d, b, some ("list_database_operations")⟩ =
        .call_list_database_operations i ∧
      mainDispatch ⟨i, d, b, some ("delete_backup")⟩ = .call_delete_backup i b ∧
      mainDispatch ⟨i, d, b, some ("create_backup")⟩ =
        .type_error ("create_backup() missing 1 required positional argument: version_time") ∧
      mainDispatch ⟨i, d, b, some ("copy_backup")⟩ = .attribute_error ("source_backup_id")) ∧
    mainDispatch ⟨"test-instance", "example_db", "example_backup", none⟩ =
      .print_line ("Command None did not match expected commands.") :=
  ⟨fun i d b => ⟨rfl, rfl, rfl, rfl, rfl, rfl, rfl, rfl, rfl⟩, rfl⟩

/-- Claim C3: on every normal return of `cancel_backup`, no backup named
`backup_id` exists: when the creation completed before the cancel, the backup
is deleted by `cancel_backup` itself (which reports the deletion), and when the
creation was cancelled no backup was created. -/
theorem C3_cancel_backup_final_state (s : SpannerState) (backup_id : String)
    (outcome : CancelOutcome) :
    spanner_backup_exists (cancel_backup_run s backup_id outcome).1 backup_id = false ∧
      (cancel_backup_run s backup_id .completed).2 =
        ["Backup was created before the cancel completed.", "Backup deleted."] := by
  constructor
  · cases outcome with
    | completed =>
        have hex : spanner_backup_exists ⟨backup_id :: s.backups⟩ backup_id = true := by
          simp [spanner_backup_exists]
        simp [cancel_backup_run, hex, spanner_backup_exists_delete]
    | cancelled =>
        by_cases h : spanner_backup_exists s backup_id
        · simp [cancel_backup_run, h, spanner_backup_exists_delete]
        · simp [cancel_backup_run, h]
  · have hex : spanner_backup_exists ⟨backup_id :: s.backups⟩ backup_id = true := by
      simp [spanner_backup_exists]
    simp [cancel_backup_run, hex]

/-- Claim C6: `create_backup` requests `expire_time = now + 14 days`
(line 36), and after the operation completes the reloaded descriptor carries
the requested expire time (service rounding taken as the identity in the
stub). -/
theorem C6_expire_time_requested_and_echoed (now : Nat) :
    (create_backup_expire_flow now).1 = now + 14 * 86400 ∧
      (create_backup_expire_flow now).2 = (create_backup_expire_flow now).1 :=
  ⟨rfl, rfl⟩

/-- Claim C7: iterating `instance.list_backups(page_size=2)` across all pages
yields exactly the backup collection a single unpaginated
`instance.list_backups()` call returns (hence the same set of names), and when
the collection has no duplicate names, no name occurs on more than one page
(the pages are pairwise disjoint). -/
theorem C7_pagination_reassembly (backups : List String) :
    (pagesOfTwo backups).flatten = backups ∧
      (backups.Nodup → (pagesOfTwo backups).Pairwise List.Disjoint) := by
  refine ⟨pagesOfTwo_flatten backups, fun h => ?_⟩
  have h2 : ((pagesOfTwo backups).flatten).Nodup := by
    rw [pagesOfTwo_flatten]
    exact h
  exact (List.nodup_flatten.mp h2).2

/-- Witness for C7 on a three-backup collection. -/
theorem C7_pagination_reassembly_witness :
    (pagesOfTwo ["backup-a", "backup-b", "backup-c"]).flatten =
        ["backup-a", "backup-b", "backup-c"] ∧
      (pagesOfTwo ["backup-a", "backup-b", "backup-c"]).Pairwise List.Disjoint :=
  ⟨(C7_pagination_reassembly ["backup-a", "backup-b", "backup-c"]).1,
    (C7_pagination_reassembly ["backup-a", "backup-b", "backup-c"]).2 (by decide)⟩

/-- Scanning past the cancel-poll loop: no `query_exists` occurs before the
first `poll_done true`, whatever follows the loop. -/
theorem no_exists_cancel_poll (tail : List Ev) :
    ∀ n, no_exists_before_done (cancel_poll_trace n ++ tail) = true
  | 0 => rfl
  | n + 1 => no_exists_cancel_poll tail n

/-- The poll results of the cancel-poll loop followed by a poll-free tail:
`n` polls return false, then one returns true. -/
theorem poll_results_cancel_poll (tail : List Ev) (ht : poll_results tail = []) :
    ∀ n, poll_results (cancel_poll_trace n ++ tail) = List.replicate n false ++ [true]
  | 0 => by
      show true :: poll_results tail = [true]
      rw [ht]
  | n + 1 => congrArg (List.cons false) (poll_results_cancel_poll tail ht n)

/-- Every sleep inside the cancel-poll loop lasts 300 seconds. -/
theorem sleep_durations_cancel_poll (tail : List Ev) (ht : sleep_durations tail = []) :
    ∀ n, sleep_durations (cancel_poll_trace n ++ tail) = List.replicate n 300
  | 0 => ht
  | n + 1 => congrArg (List.cons 300) (sleep_durations_cancel_poll tail ht n)

/-- Every sleep inside the delete wait loop lasts 30 seconds. -/
theorem sleep_durations_delete_wait (tail : List Ev) (ht : sleep_durations tail = []) :
    ∀ m, sleep_durations (delete_wait_trace m ++ tail) = List.replicate m 30
  | 0 => ht
  | m + 1 => congrArg (List.cons 30) (sleep_durations_delete_wait tail ht m)

/-- Claim C4: in `cancel_backup`, after `operation.cancel()` is issued,
`backup.exists()` is never queried before `operation.done()` has returned
true: on every trace, no `query_exists` event occurs before the first
`poll_done true` event, and the polls return false exactly until the single
true result on which the loop exits, after which the final-resource
inspection happens. -/
theorem C4_exists_queried_only_after_done (n : Nat) (created : Bool) :
    no_exists_before_done (cancel_backup_trace n created) = true ∧
      poll_results (cancel_backup_trace n created) = List.replicate n false ++ [true] := by
  cases created with
  | false =>
      exact ⟨no_exists_cancel_poll _ n,
        poll_results_cancel_poll
          [Ev.query_exists false,
            Ev.print_ev ("Backup creation was successfully cancelled.")] rfl n⟩
  | true =>
      exact ⟨no_exists_cancel_poll _ n,
        poll_results_cancel_poll
          [Ev.query_exists true,
            Ev.print_ev ("Backup was created before the cancel completed."),
            Ev.delete_call, Ev.print_ev ("Backup deleted.")] rfl n⟩

/-- Claim C8: every polling loop in the samples sleeps a fixed constant
interval between consecutive polls: the sleeps of a `cancel_backup` trace are
exactly `n` sleeps of 300 seconds, and the sleeps of a `delete_backup` trace
are exactly `m` sleeps of 30 seconds — no iteration changes the interval. -/
theorem C8_fixed_sleep_intervals (n m : Nat) (created ex : Bool) :
    sleep_durations (cancel_backup_trace n created) = List.replicate n 300 ∧
      sleep_durations (delete_backup_trace m ex) = List.replicate m 30 := by
  constructor
  · cases created with
    | false =>
        exact sleep_durations_cancel_poll
          [Ev.query_exists false,
            Ev.print_ev ("Backup creation was successfully cancelled.")] rfl n
    | true =>
        exact sleep_durations_cancel_poll
          [Ev.query_exists true,
            Ev.print_ev ("Backup was created before the cancel completed."),
            Ev.delete_call, Ev.print_ev ("Backup deleted.")] rfl n
  · cases ex with
    | false =>
        exact sleep_durations_delete_wait
          [Ev.delete_call, Ev.query_exists false,
            Ev.print_ev ("Backup has been deleted.")] rfl m
    | true =>
        exact sleep_durations_delete_wait
          [Ev.delete_call, Ev.query_exists true] rfl m

/-- Claim C9: `create_backup`, `create_backup_with_encryption_key` and
`copy_backup` return normally only if the backup descriptor reloaded after the
operation completed has `is_ready()` true: each `assert ... is True` holds on
every normal return. -/
theorem C9_normal_return_implies_ready :
    (∀ (svc : CreateBackupSvc) (out : List String),
      create_backupE svc = .ok out →
        ∃ b, svc.reload1 = .ok b ∧ b.is_ready = true) ∧
    (∀ (svc : CreateBackupSvc) (kms_key_name : String) (out : List String),
      create_backup_with_encryption_keyE svc kms_key_name = .ok out →
        ∃ b, svc.reload1 = .ok b ∧ b.is_ready = true) ∧
    (∀ (svc : CopyBackupSvc) (out : List String),
      copy_backupE svc = .ok out →
        ∃ b, svc.reload = .ok b ∧ b.is_ready = true) := by
  refine ⟨?_, ?_, ?_⟩
  · intro svc out h
    cases hc : svc.create with
    | error e => simp [create_backupE, hc] at h
    | ok u =>
      cases ho : svc.op_result with
      | error e => simp [create_backupE, hc, ho] at h
      | ok v =>
        cases hr : svc.reload1 with
        | error e => simp [create_backupE, hc, ho, hr] at h
        | ok b1 =>
          by_cases hb : b1.is_ready = true
          · exact ⟨b1, rfl, hb⟩
          · simp [create_backupE, hc, ho, hr, hb] at h
  · intro svc kms_key_name out h
    cases hc : svc.create with
    | error e => simp [create_backup_with_encryption_keyE, hc] at h
    | ok u =>
      cases ho : svc.op_result with
      | error e => simp [create_backup_with_encryption_keyE, hc, ho] at h
      | ok v =>
        cases hr : svc.reload1 with
        | error e => simp [create_backup_with_encryption_keyE, hc, ho, hr] at h
        | ok b1 =>
          by_cases hb : b1.is_ready = true
          · exact ⟨b1, rfl, hb⟩
          · simp [create_backup_with_encryption_keyE, hc, ho, hr, hb] at h
  · intro svc out h
    cases hc : svc.create with
    | error e => simp [copy_backupE, hc] at h
    | ok u =>
      cases ho : svc.op_result with
      | error e => simp [copy_backupE, hc, ho] at h
      | ok v =>
        cases hr : svc.reload with
        | error e => simp [copy_backupE, hc, ho, hr] at h
        | ok b1 =>
          by_cases hb : b1.is_ready = true
          · exact ⟨b1, rfl, hb⟩
          · simp [copy_backupE, hc, ho, hr, hb] at h

/-- Witness for C9 on a run of `create_backup` whose every call succeeds and
whose reloaded descriptor is ready. -/
theorem C9_normal_return_implies_ready_witness :
    ∃ b, (⟨.ok (), .ok (), .ok ⟨"backup1", 256, 1700, 1690, true⟩,
        .ok ⟨"backup1", 256, 1700, 1690, true⟩⟩ : CreateBackupSvc).reload1 = .ok b ∧
      b.is_ready = true :=
  C9_normal_return_implies_ready.1
    ⟨.ok (), .ok (), .ok ⟨"backup1", 256, 1700, 1690, true⟩,
      .ok ⟨"backup1", 256, 1700, 1690, true⟩⟩
    (["Backup " ++ "backup1" ++ " of size " ++ toString (256 : Nat) ++
      " bytes was created at " ++ toString (1700 : Nat) ++
      " for version of database at " ++ toString (1690 : Nat)])
    (by rfl)

/-- The wait loop of `delete_backup` exits only at a reload index where
`referencing_databases` is empty. -/
theorem delete_wait_run_empty (refsAt : Nat → List String) :
    ∀ (fuel i j : Nat), delete_wait_run refsAt i fuel = some j →
      (refsAt j).isEmpty = true
  | 0, i, j => by intro h; simp [delete_wait_run] at h
  | fuel + 1, i, j => by
      intro h
      by_cases he : (refsAt i).isEmpty
      · rw [delete_wait_run, if_pos he] at h
        cases h
        exact he
      · rw [delete_wait_run, if_neg he] at h
        exact delete_wait_run_empty refsAt fuel (i + 1) j h

/-- Claim C10: `delete_backup` issues `backup.delete()` only once the
`referencing_databases` observed at the final reload is empty, so a
precondition failure of the delete due to referencing databases is
unreachable; and on every normal return `backup.exists()` is false after the
delete (the `assert` holds, and the stub state no longer contains the
backup). -/
theorem C10_delete_backup_safety (refsAt : Nat → List String) (fuel : Nat)
    (s : SpannerState) (backup_id : String) (s2 : SpannerState) (i : Nat) (ex : Bool)
    (h : delete_backup_run refsAt fuel s backup_id = some (s2, i, ex)) :
    refsAt i = [] ∧ ex = false ∧ spanner_backup_exists s2 backup_id = false := by
  cases hw : delete_wait_run refsAt 0 fuel with
  | none => simp [delete_backup_run, hw] at h
  | some k =>
      simp [delete_backup_run, hw, spanner_backup_exists_delete] at h
      obtain ⟨h1, h2, h3⟩ := h
      refine ⟨?_, ?_, ?_⟩
      · have hk := List.isEmpty_iff.mp (delete_wait_run_empty refsAt fuel 0 k hw)
        rw [← h2]
        exact hk
      · exact h3
      · rw [← h1]
        exact spanner_backup_exists_delete s backup_id

/-- Witness for C10: one referencing database at the first reload, none at the
second; the delete then succeeds and the backup is gone. -/
theorem C10_delete_backup_safety_witness :
    (fun i => if i = 0 then ["restoring-db"] else ([] : List String)) 1 = [] ∧
      false = false ∧
      spanner_backup_exists ⟨[]⟩ "my-backup" = false :=
  C10_delete_backup_safety (fun i => if i = 0 then ["restoring-db"] else []) 3
    ⟨["my-backup"]⟩ "my-backup" ⟨[]⟩ 1 false (by decide)

/-- An error raised by the first failing `operation.done()` poll propagates out
of the poll loop of `cancel_backup`. -/
theorem cancel_pollE_first_error (done : Nat → Except Exc Bool) (e : Exc) :
    ∀ (k i fuel : Nat), (∀ j, j < k → done (i + j) = .ok false) →
      done (i + k) = .error e → k < fuel →
      cancel_pollE done i fuel = some (.error e)
  | 0, i, fuel + 1, _, hk, _ => by
      rw [Nat.add_zero] at hk
      simp [cancel_pollE, hk]
  | k + 1, i, fuel + 1, hj, hk, hf => by
      have h0 : done i = .ok false := by
        have h := hj 0 (Nat.succ_pos k)
        rwa [Nat.add_zero] at h
      have ih := cancel_pollE_first_error done e k (i + 1) fuel
        (fun j hjk => by
          have h := hj (j + 1) (Nat.succ_lt_succ hjk)
          rwa [show i + (j + 1) = i + 1 + j from by omega] at h)
        (by rwa [show i + (k + 1) = i + 1 + k from by omega] at hk)
        (Nat.lt_of_succ_lt_succ hf)
      simp [cancel_pollE, h0, ih]
  | _, _, 0, _, _, hf => absurd hf (Nat.not_lt_zero _)

/-- An error raised by the first failing `backup.reload()` propagates out of
the wait loop of `delete_backup`. -/
theorem delete_waitE_first_error (reload : Nat → Except Exc BackupMeta) (e : Exc) :
    ∀ (k i fuel : Nat),
      (∀ j, j < k →
        ∃ b, reload (i + j) = .ok b ∧ b.referencing_databases.isEmpty = false) →
      reload (i + k) = .error e → k < fuel →
      delete_waitE reload i fuel = some (.error e)
  | 0, i, fuel + 1, _, hk, _ => by
      rw [Nat.add_zero] at hk
      simp [delete_waitE, hk]
  | k + 1, i, fuel + 1, hj, hk, hf => by
      obtain ⟨b, hb, hne⟩ := hj 0 (Nat.succ_pos k)
      rw [Nat.add_zero] at hb
      have ih := delete_waitE_first_error reload e k (i + 1) fuel
        (fun j hjk => by
          obtain ⟨b2, hb2, hne2⟩ := hj (j + 1) (Nat.succ_lt_succ hjk)
          exact ⟨b2, by rwa [show i + (j + 1) = i + 1 + j from by omega] at hb2, hne2⟩)
        (by rwa [show i + (k + 1) = i + 1 + k from by omega] at hk)
        (Nat.lt_of_succ_lt_succ hf)
      simp [delete_waitE, hb, hne, ih]
  | _, _, 0, _, _, hf => absurd hf (Nat.not_lt_zero _)

/-- Claim C5: no sample function catches, suppresses or retries an error: for
every sample function and every remote call it makes, if that call raises `e`
(all calls before it having succeeded), the function returns exactly `.error e`
to its caller; the only local repetition is the fixed-interval polling loops,
through which an error also propagates unchanged. -/
theorem C5_errors_propagate_unchanged (e : Exc) :
    (∀ svc : CreateBackupSvc,
      (svc.create = .error e → create_backupE svc = .error e) ∧
      (svc.create = .ok () → svc.op_result = .error e → create_backupE svc = .error e) ∧
      (svc.create = .ok () → svc.op_result = .ok () → svc.reload1 = .error e →
        create_backupE svc = .error e) ∧
      (∀ b1, svc.create = .ok () → svc.op_result = .ok () → svc.reload1 = .ok b1 →
        b1.is_ready = true → svc.reload2 = .error e → create_backupE svc = .error e)) ∧
    (∀ (svc : CreateBackupSvc) (kms_key_name : String),
      (svc.create = .error e → create_backup_with_encryption_keyE svc kms_key_name = .error e) ∧
      (svc.create = .ok () → svc.op_result = .error e →
        create_backup_with_encryption_keyE svc kms_key_name = .error e) ∧
      (svc.create = .ok () → svc.op_result = .ok () → svc.reload1 = .error e →
        create_backup_with_encryption_keyE svc kms_key_name = .error e) ∧
      (∀ b1, svc.create = .ok () → svc.op_result = .ok () → svc.reload1 = .ok b1 →
        b1.is_ready = true → svc.reload2 = .error e →
        create_backup_with_encryption_keyE svc kms_key_name = .error e)) ∧
    (∀ (svc : RestoreDatabaseSvc) (new_database_id : String),
      (svc.restore = .error e → restore_databaseE svc new_database_id = .error e) ∧
      (svc.restore = .ok () → svc.op_result = .error e →
        restore_databaseE svc new_database_id = .error e) ∧
      (svc.restore = .ok () → svc.op_result = .ok () → svc.reload = .error e →
        restore_databaseE svc new_database_id = .error e)) ∧
    (∀ (svc : RestoreDatabaseSvc) (new_database_id : String),
      (svc.restore = .error e →
        restore_database_with_encryption_keyE svc new_database_id = .error e) ∧
      (svc.restore = .ok () → svc.op_result = .error e →
        restore_database_with_encryption_keyE svc new_database_id = .error e) ∧
      (svc.restore = .ok () → svc.op_result = .ok () → svc.reload = .error e →
        restore_database_with_encryption_keyE svc new_database_id = .error e)) ∧
    (∀ svc : CancelBackupSvc,
      (∀ fuel, svc.create = .error e → cancel_backupE svc fuel = some (.error e)) ∧
      (∀ fuel, svc.create = .ok () → svc.cancel = .error e →
        cancel_backupE svc fuel = some (.error e)) ∧
      (∀ k fuel, svc.create = .ok () → svc.cancel = .ok () →
        (∀ j, j < k → svc.done j = .ok false) → svc.done k = .error e → k < fuel →
        cancel_backupE svc fuel = some (.error e)) ∧
      (∀ fuel, svc.create = .ok () → svc.cancel = .ok () →
        cancel_pollE svc.done 0 fuel = some (.ok ()) → svc.backup_exists = .error e →
        cancel_backupE svc fuel = some (.error e)) ∧
      (∀ fuel, svc.create = .ok () → svc.cancel = .ok () →
        cancel_pollE svc.done 0 fuel = some (.ok ()) → svc.backup_exists = .ok true →
        svc.delete = .error e → cancel_backupE svc fuel = some (.error e))) ∧
    (∀ svc : ListBackupOperationsSvc,
      (svc.list_create_ops = .error e → list_backup_operationsE svc = .error e) ∧
      (∀ ops1, svc.list_create_ops = .ok ops1 → svc.list_copy_ops = .error e →
        list_backup_operationsE svc = .error e)) ∧
    (∀ svc : ListDatabaseOperationsSvc,
      svc.list_ops = .error e → list_database_operationsE svc = .error e) ∧
    (∀ svc : ListBackupsSvc,
      (svc.list_all = .error e → list_backupsE svc = .error e) ∧
      (∀ l1, svc.list_all = .ok l1 → svc.list_by_name = .error e →
        list_backupsE svc = .error e) ∧
      (∀ l1 l2, svc.list_all = .ok l1 → svc.list_by_name = .ok l2 →
        svc.list_by_database = .error e → list_backupsE svc = .error e) ∧
      (∀ l1 l2 l3, svc.list_all = .ok l1 → svc.list_by_name = .ok l2 →
        svc.list_by_database = .ok l3 → svc.list_by_expire = .error e →
        list_backupsE svc = .error e) ∧
      (∀ l1 l2 l3 l4, svc.list_all = .ok l1 → svc.list_by_name = .ok l2 →
        svc.list_by_database = .ok l3 → svc.list_by_expire = .ok l4 →
        svc.list_by_size = .error e → list_backupsE svc = .error e) ∧
      (∀ l1 l2 l3 l4 l5, svc.list_all = .ok l1 → svc.list_by_name = .ok l2 →
        svc.list_by_database = .ok l3 → svc.list_by_expire = .ok l4 →
        svc.list_by_size = .ok l5 → svc.list_by_create_ready = .error e →
        list_backupsE svc = .error e) ∧
      (∀ l1 l2 l3 l4 l5 l6, svc.list_all = .ok l1 → svc.list_by_name = .ok l2 →
        svc.list_by_database = .ok l3 → svc.list_by_expire = .ok l4 →
        svc.list_by_size = .ok l5 → svc.list_by_create_ready = .ok l6 →
        svc.list_paged = .error e → list_backupsE svc = .error e)) ∧
    (∀ svc : DeleteBackupSvc,
      (∀ k fuel,
        (∀ j, j < k →
          ∃ b, svc.reload j = .ok b ∧ b.referencing_databases.isEmpty = false) →
        svc.reload k = .error e → k < fuel →
        delete_backupE svc fuel = some (.error e)) ∧
      (∀ fuel b, delete_waitE svc.reload 0 fuel = some (.ok b) → svc.delete = .error e →
        delete_backupE svc fuel = some (.error e)) ∧
      (∀ fuel b, delete_waitE svc.reload 0 fuel = some (.ok b) → svc.delete = .ok () →
        svc.backup_exists = .error e → delete_backupE svc fuel = some (.error e))) ∧
    (∀ svc : UpdateBackupSvc,
      (svc.reload = .error e → update_backupE svc = .error e) ∧
      (∀ b, svc.reload = .ok b → svc.update_expire_time = .error e →
        update_backupE svc = .error e)) ∧
    (∀ svc : CreateDatabaseVRPSvc,
      (svc.create = .error e →
        create_database_with_version_retention_periodE svc = .error e) ∧
      (svc.create = .ok () → svc.op_result = .error e →
        create_database_with_version_retention_periodE svc = .error e) ∧
      (svc.create = .ok () → svc.op_result = .ok () → svc.reload = .error e →
        create_database_with_version_retention_periodE svc = .error e) ∧
      (∀ db, svc.create = .ok () → svc.op_result = .ok () → svc.reload = .ok db →
        svc.drop = .error e →
        create_database_with_version_retention_periodE svc = .error e)) ∧
    (∀ svc : CopyBackupSvc,
      (svc.create = .error e → copy_backupE svc = .error e) ∧
      (svc.create = .ok () → svc.op_result = .error e → copy_backupE svc = .error e) ∧
      (svc.create = .ok () → svc.op_result = .ok () → svc.reload = .error e →
        copy_backupE svc = .error e)) := by
  refine ⟨?_, ?_, ?_, ?_, ?_, ?_, ?_, ?_, ?_, ?_, ?_, ?_⟩
  · intro svc
    refine ⟨?_, ?_, ?_, ?_⟩
    · intro h1; simp [create_backupE, h1]
    · intro h1 h2; simp [create_backupE, h1, h2]
    · intro h1 h2 h3; simp [create_backupE, h1, h2, h3]
    · intro b1 h1 h2 h3 hb h4; simp [create_backupE, h1, h2, h3, hb, h4]
  · intro svc kms_key_name
    refine ⟨?_, ?_, ?_, ?_⟩
    · intro h1; simp [create_backup_with_encryption_keyE, h1]
    · intro h1 h2; simp [create_backup_with_encryption_keyE, h1, h2]
    · intro h1 h2 h3; simp [create_backup_with_encryption_keyE, h1, h2, h3]
    · intro b1 h1 h2 h3 hb h4
      simp [create_backup_with_encryption_keyE, h1, h2, h3, hb, h4]
  · intro svc new_database_id
    refine ⟨?_, ?_, ?_⟩
    · intro h1; simp [restore_databaseE, h1]
    · intro h1 h2; simp [restore_databaseE, h1, h2]
    · intro h1 h2 h3; simp [restore_databaseE, h1, h2, h3]
  · intro svc new_database_id
    refine ⟨?_, ?_, ?_⟩
    · intro h1; simp [restore_database_with_encryption_keyE, h1]
    · intro h1 h2; simp [restore_database_with_encryption_keyE, h1, h2]
    · intro h1 h2 h3; simp [restore_database_with_encryption_keyE, h1, h2, h3]
  · intro svc
    refine ⟨?_, ?_, ?_, ?_, ?_⟩
    · intro fuel h1; simp [cancel_backupE, h1]
    · intro fuel h1 h2; simp [cancel_backupE, h1, h2]
    · intro k fuel h1 h2 hj hk hf
      have hp := cancel_pollE_first_error svc.done e k 0 fuel
        (fun j hjk => by rw [Nat.zero_add]; exact hj j hjk)
        (by rw [Nat.zero_add]; exact hk) hf
      simp [cancel_backupE, h1, h2, hp]
    · intro fuel h1 h2 hp h3; simp [cancel_backupE, h1, h2, hp, h3]
    · intro fuel h1 h2 hp h3 h4; simp [cancel_backupE, h1, h2, hp, h3, h4]
  · intro svc
    refine ⟨?_, ?_⟩
    · intro h1; simp [list_backup_operationsE, h1]
    · intro ops1 h1 h2; simp [list_backup_operationsE, h1, h2]
  · intro svc h1
    simp [list_database_operationsE, h1]
  · intro svc
    refine ⟨?_, ?_, ?_, ?_, ?_, ?_, ?_⟩
    · intro h1; simp [list_backupsE, h1]
    · intro l1 h1 h2; simp [list_backupsE, h1, h2]
    · intro l1 l2 h1 h2 h3; simp [list_backupsE, h1, h2, h3]
    · intro l1 l2 l3 h1 h2 h3 h4; simp [list_backupsE, h1, h2, h3, h4]
    · intro l1 l2 l3 l4 h1 h2 h3 h4 h5; simp [list_backupsE, h1, h2, h3, h4, h5]
    · intro l1 l2 l3 l4 l5 h1 h2 h3 h4 h5 h6
      simp [list_backupsE, h1, h2, h3, h4, h5, h6]
    · intro l1 l2 l3 l4 l5 l6 h1 h2 h3 h4 h5 h6 h7
      simp [list_backupsE, h1, h2, h3, h4, h5, h6, h7]
  · intro svc
    refine ⟨?_, ?_, ?_⟩
    · intro k fuel hj hk hf
      have hp := delete_waitE_first_error svc.reload e k 0 fuel
        (fun j hjk => by
          obtain ⟨b, hb, hne⟩ := hj j hjk
          exact ⟨b, by rwa [Nat.zero_add], hne⟩)
        (by rw [Nat.zero_add]; exact hk) hf
      simp [delete_backupE, hp]
    · intro fuel b hw h1; simp [delete_backupE, hw, h1]
    · intro fuel b hw h1 h2; simp [delete_backupE, hw, h1, h2]
  · intro svc
    refine ⟨?_, ?_⟩
    · intro h1; simp [update_backupE, h1]
    · intro b h1 h2; simp [update_backupE, h1, h2]
  · intro svc
    refine ⟨?_, ?_, ?_, ?_⟩
    · intro h1; simp [create_database_with_version_retention_periodE, h1]
    · intro h1 h2; simp [create_database_with_version_retention_periodE, h1, h2]
    · intro h1 h2 h3; simp [create_database_with_version_retention_periodE, h1, h2, h3]
    · intro db h1 h2 h3 h4
      simp [create_database_with_version_retention_periodE, h1, h2, h3, h4]
  · intro svc
    refine ⟨?_, ?_, ?_⟩
    · intro h1; simp [copy_backupE, h1]
    · intro h1 h2; simp [copy_backupE, h1, h2]
    · intro h1 h2 h3; simp [copy_backupE, h1, h2, h3]

/-- Witness for C5: a `create_backup` run whose create call raises error 7
returns exactly that error, and a `cancel_backup` run whose first `done()`
poll raises error 7 also returns exactly that error. -/
theorem C5_errors_propagate_unchanged_witness :
    create_backupE ⟨.error (.serviceError 7), .ok (), .ok ⟨"b1", 1, 2, 3, true⟩,
        .ok ⟨"b1", 1, 2, 3, true⟩⟩ = .error (.serviceError 7) ∧
      cancel_backupE ⟨.ok (), .ok (), fun _ => .error (.serviceError 7), .ok false, .ok ()⟩ 1 =
        some (.error (.serviceError 7)) :=
  ⟨((C5_errors_propagate_unchanged (.serviceError 7)).1 _).1 rfl,
    (((C5_errors_propagate_unchanged (.serviceError 7)).2.2.2.2.1
      ⟨.ok (), .ok (), fun _ => .error (.serviceError 7), .ok false, .ok ()⟩).2.2.1
      0 1 rfl rfl (fun j hj => absurd hj (Nat.not_lt_zero j)) rfl (by decide))⟩
